import Mathlib

/-!
Shallow embedding of the Merf Stock Engine service (script/stock_service.py).

Numeric values (Python floats) are modelled as exact rationals; Python's
round(x, 2) is modelled by rounding x * 100 to the nearest integer and
dividing by 100. Strings are Lean strings; ticker symbols are additionally
manipulated at the character-list level, mirroring Python's per-character
ASCII case mapping. The remote HTTP layer is modelled by passing the
provider's response (status code plus parsed JSON body) as an explicit
argument; JSON bodies are modelled by the record shapes the service
actually inspects, with optional fields for possibly-missing keys.
-/

namespace StockEngine

/-- Model of Python round(x, 2): round to two decimal places. -/
def round2 (x : ℚ) : ℚ := (round (x * 100) : ℚ) / 100

/-- One iteration of the Wilder smoothing loop in calculate_rsi
(stock_service.py lines 64-66): both running averages are updated from the
current gain/loss pair. -/
def wilder_step (window : ℕ) (p : ℚ × ℚ) (gl : ℚ × ℚ) : ℚ × ℚ :=
  ((p.1 * ((window : ℚ) - 1) + gl.1) / (window : ℚ),
   (p.2 * ((window : ℚ) - 1) + gl.2) / (window : ℚ))

/-- The first differences in calculate_rsi (stock_service.py line 45):
deltas[i] = closes[i+1] - closes[i] for every consecutive pair. -/
def deltas_of (closes : List ℚ) : List ℚ :=
  List.zipWith (fun a b => a - b) closes.tail closes

/-- The gains sequence of the delta-splitting loop (stock_service.py
lines 50-56): a positive delta itself, 0 otherwise. -/
def gains_of (deltas : List ℚ) : List ℚ :=
  deltas.map (fun d => if 0 < d then d else 0)

/-- The losses sequence of the delta-splitting loop (stock_service.py
lines 50-56): 0 for a positive delta, abs(d) otherwise. -/
def losses_of (deltas : List ℚ) : List ℚ :=
  deltas.map (fun d => if 0 < d then 0 else |d|)

/-- The pair (avg_gain, avg_loss) after seeding from the first window
gains/losses (stock_service.py lines 61-62) and running the Wilder
smoothing loop over the remaining ones (lines 64-66). -/
def wilder_avgs (window : ℕ) (gains losses : List ℚ) : ℚ × ℚ :=
  ((gains.drop window).zip (losses.drop window)).foldl (wilder_step window)
    ((gains.take window).sum / (window : ℚ), (losses.take window).sum / (window : ℚ))

/-- calculate_rsi (stock_service.py lines 40-74). In the source, window
defaults to 14; every call site passes window=14 explicitly here. -/
def calculate_rsi (closes : List ℚ) (window : ℕ) : ℚ :=
  if closes.length < window + 1 then 50
  else
    let gains := gains_of (deltas_of closes)
    let losses := losses_of (deltas_of closes)
    if gains.length < window then 50
    else
      let avgs := wilder_avgs window gains losses
      if avgs.2 = 0 then 100
      else round2 (100 - 100 / (1 + avgs.1 / avgs.2))

/-- get_period_seconds (stock_service.py lines 76-91). The dynamic "ytd"
entry, int((now - Jan 1 of now.year).total_seconds()), is passed in as
ytd_seconds, the whole seconds elapsed since January 1 of the current
year. Unrecognized tokens fall back to 30 days. -/
def get_period_seconds (period : String) (ytd_seconds : ℕ) : ℕ :=
  if period = "1d" then 86400
  else if period = "5d" then 5 * 86400
  else if period = "1mo" then 30 * 86400
  else if period = "3mo" then 90 * 86400
  else if period = "6mo" then 180 * 86400
  else if period = "1y" then 365 * 86400
  else if period = "2y" then 2 * 365 * 86400
  else if period = "5y" then 5 * 365 * 86400
  else if period = "10y" then 10 * 365 * 86400
  else if period = "ytd" then ytd_seconds
  else if period = "max" then 50 * 365 * 86400
  else 30 * 86400

/-- The time window computed in fetch_yahoo_data (stock_service.py lines
96-98): end_time is the current Unix timestamp, start_time is end_time
minus the period duration. -/
def time_window (period : String) (ytd_seconds : ℕ) (end_time : ℤ) : ℤ × ℤ :=
  (end_time - (get_period_seconds period ytd_seconds : ℤ), end_time)

/-- The quote object quote = result.indicators.quote[0]: close is the
possibly-absent "close" key, a list of possibly-null prices. -/
structure QuoteObj where
  close : Option (List (Option ℚ))
  deriving DecidableEq

/-- The indicators object of a chart result: quote is the possibly-absent
"quote" key, a list of quote objects. -/
structure IndicatorsObj where
  quote : Option (List QuoteObj)
  deriving DecidableEq

/-- The meta object of a chart result, with the fields the service reads:
meta.symbol (always read with plain indexing), and the optional
meta.currency and meta.regularMarketPrice keys (read with .get). -/
structure MetaObj where
  symbol : String
  currency : Option String
  regularMarketPrice : Option ℚ
  deriving DecidableEq

/-- One element of chart.result: meta plus the possibly-absent
"indicators" key. -/
structure ResultObj where
  meta : MetaObj
  indicators : Option IndicatorsObj
  deriving DecidableEq

/-- The chart object: result is the possibly-absent "result" key. -/
structure ChartNode where
  result : Option (List ResultObj)
  deriving DecidableEq

/-- A parsed provider response body: chart is the possibly-absent "chart"
key. -/
structure ChartData where
  chart : Option ChartNode
  deriving DecidableEq

/-- A Python-level failure escaping fetch_yahoo_data: either a raised
HTTPException (status code and detail message) or any other raised
exception (for example the IndexError from indexing an empty list),
carrying str(e). -/
inductive PyErr where
  | httpException (status : ℕ) (detail : String)
  | otherError (msg : String)
  deriving DecidableEq

/-- The dictionary returned by fetch_yahoo_data on success
(stock_service.py lines 136-141). -/
structure FetchResult where
  symbol : String
  closes : List ℚ
  currency : String
  regularMarketPrice : ℚ
  deriving DecidableEq

/-- fetch_yahoo_data from the provider response onward (stock_service.py
lines 113-141), given the response status and parsed body. A non-200
status raises with the upstream status; then the staged shape checks run:
missing chart/result or empty result list, missing indicators/quote keys,
and an empty null-filtered close list each raise a 404 with its own
message. Indexing quote[0] on an empty (but present) quote list raises
IndexError, modelled as otherError. meta.currency defaults to "TRY" and
meta.regularMarketPrice defaults to the last filtered close. -/
def fetch_yahoo_data (symbol : String) (status : ℕ) (data : ChartData) :
    Except PyErr FetchResult :=
  if status ≠ 200 then
    .error (.httpException status "Yahoo Finance API error")
  else
    match data.chart with
    | none => .error (.httpException 404 (symbol ++ " için veri bulunamadı."))
    | some chartNode =>
      match chartNode.result with
      | none => .error (.httpException 404 (symbol ++ " için veri bulunamadı."))
      | some [] => .error (.httpException 404 (symbol ++ " için veri bulunamadı."))
      | some (result :: _) =>
        match result.indicators with
        | none => .error (.httpException 404 (symbol ++ " için fiyat verisi bulunamadı."))
        | some ind =>
          match ind.quote with
          | none => .error (.httpException 404 (symbol ++ " için fiyat verisi bulunamadı."))
          | some [] => .error (.otherError "list index out of range")
          | some (q :: _) =>
            let closes := (q.close.getD []).filterMap id
            if closes = [] then
              .error (.httpException 404 (symbol ++ " için kapanış verisi bulunamadı."))
            else
              .ok ⟨result.meta.symbol, closes, result.meta.currency.getD ("TRY"),
                   result.meta.regularMarketPrice.getD (closes.getLastD 0)⟩

/-- Python str.upper at the character level (ASCII case mapping, which is
what the service's tickers use): Char.toUpper maps a-z to A-Z and leaves
everything else unchanged. -/
def upperChars (s : List Char) : List Char := s.map Char.toUpper

/-- The symbol normalization in analyze_stock (stock_service.py lines
156-158): uppercase; then append ".IS" when the result has length at most
5, does not already end with ".IS", and does not contain "USD". -/
def normalize_symbol (s : List Char) : List Char :=
  let u := upperChars s
  if u.length ≤ 5 ∧ ¬ ['.', 'I', 'S'] <:+ u ∧ ¬ ['U', 'S', 'D'] <:+: u then
    u ++ ['.', 'I', 'S']
  else u

/-- String-level wrapper of normalize_symbol. -/
def normalize_symbol_str (s : String) : String := String.mk (normalize_symbol s.data)

/-- The recommendation assignment in analyze_stock (stock_service.py lines
174-178): strictly below 30 is AL (buy), strictly above 70 is SAT (sell),
otherwise the initial NÖTR (neutral) stands. -/
def recommendation_of (rsi_val : ℚ) : String :=
  if rsi_val < 30 then "AL (Aşırı Satım)"
  else if 70 < rsi_val then "SAT (Aşırı Alım)"
  else "NÖTR"

/-- Request body of POST /analyze. -/
structure StockRequest where
  symbol : String
  period : String
  interval : String
  deriving DecidableEq

/-- Response body of POST /analyze. -/
structure StockResponse where
  symbol : String
  price : ℚ
  change_percent : ℚ
  rsi : ℚ
  recommendation : String
  period : String
  data_points : ℕ
  deriving DecidableEq

/-- analyze_stock (stock_service.py lines 151-188). api_secret is the
configured shared secret (SERVICE_SECRET environment variable with a
hardcoded fallback); x_api_token is the optional x-api-token header (None
when absent); provider maps the (already normalized) symbol, period and
interval of the outbound request to the provider's response. A token
different from the secret raises 401 before anything else; HTTPExceptions
from the fetch are re-raised unchanged and any other exception is wrapped
as a 500. On success closes is nonempty (guaranteed by fetch_yahoo_data),
so closes[-1] and closes[0] are its last and first elements. -/
def analyze_stock (api_secret : String)
    (provider : String → String → String → ℕ × ChartData)
    (request : StockRequest) (x_api_token : Option String) :
    Except PyErr StockResponse :=
  if x_api_token ≠ some api_secret then
    .error (.httpException 401 "Yetkisiz Erişim!")
  else
    let symbol := normalize_symbol_str request.symbol
    let resp := provider symbol request.period request.interval
    match fetch_yahoo_data symbol resp.1 resp.2 with
    | .error (.httpException st d) => .error (.httpException st d)
    | .error (.otherError msg) =>
        .error (.httpException 500 ("Veri çekme hatası: " ++ msg))
    | .ok data =>
      let closes := data.closes
      let current_price := closes.getLastD 0
      let start_price := closes.headD 0
      let change_pct := (current_price - start_price) / start_price * 100
      let rsi_val := calculate_rsi closes 14
      .ok ⟨data.symbol, round2 current_price, round2 change_pct, rsi_val,
           recommendation_of rsi_val, request.period, closes.length⟩

/-! Helper lemmas shared by the claim theorems. -/

/-- Char.toUpper is idempotent: uppercasing a character twice equals
uppercasing it once. -/
theorem toUpper_toUpper (c : Char) : c.toUpper.toUpper = c.toUpper := by
  simp only [Char.toUpper]
  by_cases h : c.toNat ≥ 97 ∧ c.toNat ≤ 122
  · rw [if_pos h]
    have hv : Nat.isValidChar (c.toNat - 32) := Or.inl (by omega)
    have ht : (Char.ofNat (c.toNat - 32)).toNat = c.toNat - 32 := by
      simp only [Char.ofNat]
      rw [dif_pos hv]
      rfl
    rw [if_neg]
    rw [ht]
    omega
  · rw [if_neg h, if_neg h]

/-- Uppercasing a character list is idempotent. -/
theorem upperChars_idem (s : List Char) : upperChars (upperChars s) = upperChars s := by
  simp only [upperChars, List.map_map]
  apply List.map_congr_left
  intro c _
  exact toUpper_toUpper c

/-- upperChars distributes over list append. -/
theorem upperChars_append (a b : List Char) :
    upperChars (a ++ b) = upperChars a ++ upperChars b := List.map_append _ _ _

/-- The ".IS" suffix is already uppercase. -/
theorem upperChars_dot_is : upperChars ['.', 'I', 'S'] = ['.', 'I', 'S'] := by decide

/-- A foldl preserves any invariant preserved by each step on the list's
elements. -/
theorem foldl_preserve {α β : Type} (P : β → Prop) (f : β → α → β) :
    ∀ (l : List α) (b : β), P b → (∀ a ∈ l, ∀ x, P x → P (f x a)) → P (l.foldl f b)
  | [], _, hb, _ => hb
  | a :: l, b, hb, hf =>
      foldl_preserve P f l (f b a) (hf a (List.mem_cons_self a l) b hb)
        (fun a' ha' => hf a' (List.mem_cons_of_mem _ ha'))

/-- Every entry of the gains sequence is nonnegative. -/
theorem gains_of_nonneg (deltas : List ℚ) : ∀ x ∈ gains_of deltas, 0 ≤ x := by
  intro x hx
  obtain ⟨d, _, rfl⟩ := List.mem_map.mp hx
  split
  · linarith
  · exact le_refl 0

/-- Every entry of the losses sequence is nonnegative. -/
theorem losses_of_nonneg (deltas : List ℚ) : ∀ x ∈ losses_of deltas, 0 ≤ x := by
  intro x hx
  obtain ⟨d, _, rfl⟩ := List.mem_map.mp hx
  split
  · exact le_refl 0
  · exact abs_nonneg d

/-- One Wilder smoothing step keeps both running averages nonnegative
when the incoming gain/loss pair is nonnegative. -/
theorem wilder_step_nonneg (window : ℕ) (hw : 1 ≤ window) (p a : ℚ × ℚ)
    (hp1 : 0 ≤ p.1) (hp2 : 0 ≤ p.2) (ha1 : 0 ≤ a.1) (ha2 : 0 ≤ a.2) :
    0 ≤ (wilder_step window p a).1 ∧ 0 ≤ (wilder_step window p a).2 := by
  have hw1 : (1 : ℚ) ≤ (window : ℚ) := by exact_mod_cast hw
  unfold wilder_step
  constructor
  · apply div_nonneg _ (by positivity)
    have := mul_nonneg hp1 (by linarith : (0 : ℚ) ≤ (window : ℚ) - 1)
    linarith
  · apply div_nonneg _ (by positivity)
    have := mul_nonneg hp2 (by linarith : (0 : ℚ) ≤ (window : ℚ) - 1)
    linarith

/-- Both smoothed averages are nonnegative when every gain and loss is. -/
theorem wilder_avgs_nonneg (window : ℕ) (hw : 1 ≤ window) (gains losses : List ℚ)
    (hg : ∀ x ∈ gains, 0 ≤ x) (hl : ∀ x ∈ losses, 0 ≤ x) :
    0 ≤ (wilder_avgs window gains losses).1 ∧ 0 ≤ (wilder_avgs window gains losses).2 := by
  unfold wilder_avgs
  apply foldl_preserve (fun p : ℚ × ℚ => 0 ≤ p.1 ∧ 0 ≤ p.2)
  · constructor
    · exact div_nonneg (List.sum_nonneg (fun x hx => hg x (List.mem_of_mem_take hx)))
        (by positivity)
    · exact div_nonneg (List.sum_nonneg (fun x hx => hl x (List.mem_of_mem_take hx)))
        (by positivity)
  · intro a ha x hx
    obtain ⟨hag, hal⟩ := List.of_mem_zip ha
    exact wilder_step_nonneg window hw x a hx.1 hx.2
      (hg a.1 (List.mem_of_mem_drop hag)) (hl a.2 (List.mem_of_mem_drop hal))

/-- Rounding to two decimals keeps a value of [0, 100) inside [0, 100]. -/
theorem round2_bounds (x : ℚ) (h0 : 0 ≤ x) (h1 : x < 100) :
    0 ≤ round2 x ∧ round2 x ≤ 100 := by
  unfold round2
  have hr0 : (0 : ℤ) ≤ round (x * 100) := by
    rw [round_eq]
    apply Int.floor_nonneg.mpr
    linarith
  have hr1 : round (x * 100) ≤ 10000 := by
    rw [round_eq]
    have hlt : (x * 100 + 1 / 2 : ℚ) < ((10001 : ℤ) : ℚ) := by push_cast; linarith
    have := Int.floor_lt.mpr hlt
    omega
  constructor
  · apply div_nonneg _ (by norm_num)
    exact_mod_cast hr0
  · rw [div_le_iff₀ (by norm_num : (0 : ℚ) < 100)]
    calc ((round (x * 100) : ℤ) : ℚ) ≤ ((10000 : ℤ) : ℚ) := by exact_mod_cast hr1
    _ = 100 * 100 := by norm_num

/-- In a chain of strictly increasing closes every first difference is
strictly positive. -/
theorem deltas_of_pos : ∀ (l : List ℚ), l.Chain' (· < ·) → ∀ d ∈ deltas_of l, 0 < d := by
  intro l
  induction l with
  | nil => intro _ d hd; simp [deltas_of] at hd
  | cons a t ih =>
    cases t with
    | nil => intro _ d hd; simp [deltas_of] at hd
    | cons b t2 =>
      intro hc d hd
      rw [List.chain'_cons] at hc
      have he : deltas_of (a :: b :: t2) = (b - a) :: deltas_of (b :: t2) := rfl
      rw [he] at hd
      rcases List.mem_cons.mp hd with h | h
      · rw [h]; linarith [hc.1]
      · exact ih hc.2 d h

/-- With all deltas strictly positive every loss entry is zero. -/
theorem losses_of_zero (deltas : List ℚ) (h : ∀ d ∈ deltas, 0 < d) :
    ∀ x ∈ losses_of deltas, x = 0 := by
  intro x hx
  obtain ⟨d, hd, rfl⟩ := List.mem_map.mp hx
  rw [if_pos (h d hd)]

/-- With an all-zero losses list the smoothed average loss is zero. -/
theorem wilder_avgs_snd_zero (window : ℕ) (gains losses : List ℚ)
    (hl : ∀ x ∈ losses, x = 0) :
    (wilder_avgs window gains losses).2 = 0 := by
  unfold wilder_avgs
  exact foldl_preserve (fun p : ℚ × ℚ => p.2 = 0) (wilder_step window)
    ((gains.drop window).zip (losses.drop window))
    ((gains.take window).sum / (window : ℚ), (losses.take window).sum / (window : ℚ))
    (by
      have hz : (losses.take window).sum = 0 :=
        List.sum_eq_zero (fun x hx => hl x (List.mem_of_mem_take hx))
      simp [hz])
    (by
      intro a ha x hx
      obtain ⟨_, hal⟩ := List.of_mem_zip ha
      have ha2 : a.2 = 0 := hl a.2 (List.mem_of_mem_drop hal)
      unfold wilder_step
      simp [hx, ha2])

/-- Every period duration is positive except possibly ytd, which equals
the elapsed seconds since January 1 of the current year. -/
theorem period_seconds_pos (period : String) (ytd_seconds : ℕ)
    (h : period = "ytd" → 0 < ytd_seconds) :
    0 < get_period_seconds period ytd_seconds := by
  unfold get_period_seconds
  by_cases h1 : period = "1d"
  · rw [if_pos h1]; omega
  rw [if_neg h1]
  by_cases h2 : period = "5d"
  · rw [if_pos h2]; omega
  rw [if_neg h2]
  by_cases h3 : period = "1mo"
  · rw [if_pos h3]; omega
  rw [if_neg h3]
  by_cases h4 : period = "3mo"
  · rw [if_pos h4]; omega
  rw [if_neg h4]
  by_cases h5 : period = "6mo"
  · rw [if_pos h5]; omega
  rw [if_neg h5]
  by_cases h6 : period = "1y"
  · rw [if_pos h6]; omega
  rw [if_neg h6]
  by_cases h7 : period = "2y"
  · rw [if_pos h7]; omega
  rw [if_neg h7]
  by_cases h8 : period = "5y"
  · rw [if_pos h8]; omega
  rw [if_neg h8]
  by_cases h9 : period = "10y"
  · rw [if_pos h9]; omega
  rw [if_neg h9]
  by_cases h10 : period = "ytd"
  · rw [if_pos h10]; exact h h10
  rw [if_neg h10]
  by_cases h11 : period = "max"
  · rw [if_pos h11]; omega
  rw [if_neg h11]
  omega

/-- When the fetch succeeds the analysis response is assembled from the
fetched closes: price and change_percent rounded to two decimals, the RSI
of the filtered series and its recommendation, the provider's canonical
symbol and the number of data points. -/
theorem analyze_ok_of_fetch_ok (api_secret : String)
    (provider : String → String → String → ℕ × ChartData)
    (request : StockRequest) (data : FetchResult)
    (h : fetch_yahoo_data (normalize_symbol_str request.symbol)
          (provider (normalize_symbol_str request.symbol) request.period request.interval).1
          (provider (normalize_symbol_str request.symbol) request.period request.interval).2 =
        .ok data) :
    analyze_stock api_secret provider request (some api_secret) =
      .ok ⟨data.symbol, round2 (data.closes.getLastD 0),
           round2 ((data.closes.getLastD 0 - data.closes.headD 0) / data.closes.headD 0 * 100),
           calculate_rsi data.closes 14,
           recommendation_of (calculate_rsi data.closes 14),
           request.period, data.closes.length⟩ := by
  unfold analyze_stock
  rw [if_neg (not_not_intro rfl)]
  simp only [h]

/-- Rounding the whole number 4 to two decimals leaves it unchanged. -/
theorem round2_four : round2 (4 : ℚ) = 4 := by
  unfold round2
  rw [show ((4 : ℚ) * 100) = ((400 : ℤ) : ℚ) by norm_num, round_intCast]
  norm_num

/-- The percent change of the series [3, 4] rounds to 33.33. -/
theorem round2_third : round2 ((4 - 3) / 3 * 100 : ℚ) = 3333 / 100 := by
  unfold round2
  rw [round_eq]
  rw [show ⌊((4 - 3) / 3 * 100 * 100 + 1 / 2 : ℚ)⌋ = 3333 from
    Int.floor_eq_iff.mpr (by norm_num)]
  norm_num

/-! Claim theorems. -/

/-- Claim C1: whenever the x-api-token header is absent or differs from
the configured shared secret, analyze_stock fails with 401 Unauthorized,
and the provider is never consulted: the outcome is identical for any two
provider functions, so no remote call can have been made before the token
check. -/
theorem analyze_auth_fail_fast (api_secret : String)
    (provider provider2 : String → String → String → ℕ × ChartData)
    (request : StockRequest) (x_api_token : Option String)
    (h : x_api_token ≠ some api_secret) :
    analyze_stock api_secret provider request x_api_token =
      .error (.httpException 401 ("Yetkisiz Erişim!")) ∧
    analyze_stock api_secret provider request x_api_token =
      analyze_stock api_secret provider2 request x_api_token := by
  have hmain : ∀ p : String → String → String → ℕ × ChartData,
      analyze_stock api_secret p request x_api_token =
        .error (.httpException 401 ("Yetkisiz Erişim!")) := by
    intro p
    unfold analyze_stock
    rw [if_pos h]
  exact ⟨hmain provider, (hmain provider).trans (hmain provider2).symm⟩

/-- Claim C1 witness: a request with no token against the default secret
is rejected with 401. -/
theorem analyze_auth_fail_fast_witness :
    analyze_stock ("merf_stock_secret_123") (fun _ _ _ => (200, ⟨none⟩))
      ⟨"thyao", "1mo", "1d"⟩ none =
      .error (.httpException 401 ("Yetkisiz Erişim!")) :=
  (analyze_auth_fail_fast ("merf_stock_secret_123") (fun _ _ _ => (200, ⟨none⟩))
    (fun _ _ _ => (200, ⟨none⟩)) ⟨"thyao", "1mo", "1d"⟩ none (by decide)).1

/-- Claim C2: for every non-empty close-price series, the RSI computed
with window 14 lies in the closed interval [0, 100]. -/
theorem rsi_bounds (closes : List ℚ) (h : closes ≠ []) :
    calculate_rsi closes 14 ∈ Set.Icc (0 : ℚ) 100 := by
  rw [Set.mem_Icc]
  simp only [calculate_rsi]
  by_cases hA : closes.length < 14 + 1
  · rw [if_pos hA]; norm_num
  rw [if_neg hA]
  by_cases hB : (gains_of (deltas_of closes)).length < 14
  · rw [if_pos hB]; norm_num
  rw [if_neg hB]
  have hnn := wilder_avgs_nonneg 14 (by norm_num) (gains_of (deltas_of closes))
    (losses_of (deltas_of closes)) (gains_of_nonneg _) (losses_of_nonneg _)
  by_cases hz : (wilder_avgs 14 (gains_of (deltas_of closes)) (losses_of (deltas_of closes))).2 = 0
  · rw [if_pos hz]; norm_num
  rw [if_neg hz]
  have hlpos : 0 < (wilder_avgs 14 (gains_of (deltas_of closes)) (losses_of (deltas_of closes))).2 :=
    lt_of_le_of_ne hnn.2 (Ne.symm hz)
  have hrs : 0 ≤ (wilder_avgs 14 (gains_of (deltas_of closes)) (losses_of (deltas_of closes))).1 /
      (wilder_avgs 14 (gains_of (deltas_of closes)) (losses_of (deltas_of closes))).2 :=
    div_nonneg hnn.1 (le_of_lt hlpos)
  set rs := (wilder_avgs 14 (gains_of (deltas_of closes)) (losses_of (deltas_of closes))).1 /
      (wilder_avgs 14 (gains_of (deltas_of closes)) (losses_of (deltas_of closes))).2 with hrsdef
  have hd1 : (0 : ℚ) < 1 + rs := by linarith
  have hfrac_pos : 0 < 100 / (1 + rs) := by positivity
  have hfrac_le : 100 / (1 + rs) ≤ 100 := div_le_self (by norm_num) (by linarith)
  exact round2_bounds _ (by linarith) (by linarith)

/-- Claim C2 witness: the singleton series is in bounds. -/
theorem rsi_bounds_witness : calculate_rsi [(1 : ℚ)] 14 ∈ Set.Icc (0 : ℚ) 100 :=
  rsi_bounds [(1 : ℚ)] (by decide)

/-- Claim C3: every close-price series shorter than 15 entries yields the
neutral RSI sentinel 50. -/
theorem rsi_short_neutral (closes : List ℚ) (h : closes.length < 15) :
    calculate_rsi closes 14 = 50 := by
  unfold calculate_rsi
  rw [if_pos (by omega : closes.length < 14 + 1)]

/-- Claim C3 witness: a one-element series yields 50. -/
theorem rsi_short_neutral_witness : calculate_rsi [(1 : ℚ)] 14 = 50 :=
  rsi_short_neutral [(1 : ℚ)] (by decide)

/-- Claim C4: a strictly increasing close-price series of length at least
15 yields RSI exactly 100: all losses vanish, so the smoothed average
loss is 0 and the zero-loss branch returns 100. -/
theorem rsi_increasing_hundred (closes : List ℚ) (hlen : 15 ≤ closes.length)
    (hmono : closes.Chain' (· < ·)) : calculate_rsi closes 14 = 100 := by
  simp only [calculate_rsi]
  rw [if_neg (by omega : ¬ closes.length < 14 + 1)]
  have hglen : (gains_of (deltas_of closes)).length = closes.length - 1 := by
    simp [gains_of, deltas_of]
  rw [if_neg (by omega : ¬ (gains_of (deltas_of closes)).length < 14)]
  rw [if_pos (wilder_avgs_snd_zero 14 _ _ (losses_of_zero _ (deltas_of_pos closes hmono)))]

/-- Claim C4 witness: the series 1..15 yields 100. -/
theorem rsi_increasing_hundred_witness :
    calculate_rsi [(1 : ℚ), 2, 3, 4, 5, 6, 7, 8, 9, 10, 11, 12, 13, 14, 15] 14 = 100 :=
  rsi_increasing_hundred [(1 : ℚ), 2, 3, 4, 5, 6, 7, 8, 9, 10, 11, 12, 13, 14, 15]
    (by decide) (by norm_num [List.chain'_cons])

/-- Claim C5: the recommendation is a pure threshold function of the RSI
score: strictly below 30 buys (AL), strictly above 70 sells (SAT),
everything in between, including exactly 30 and exactly 70, is neutral
(NÖTR); in particular 29.99 buys, 30 and 70 are neutral, 70.01 sells. -/
theorem recommendation_thresholds :
    (∀ r : ℚ, r < 30 → recommendation_of r = "AL (Aşırı Satım)") ∧
    (∀ r : ℚ, 70 < r → recommendation_of r = "SAT (Aşırı Alım)") ∧
    (∀ r : ℚ, 30 ≤ r → r ≤ 70 → recommendation_of r = "NÖTR") ∧
    recommendation_of (2999 / 100) = "AL (Aşırı Satım)" ∧
    recommendation_of 30 = "NÖTR" ∧
    recommendation_of 70 = "NÖTR" ∧
    recommendation_of (7001 / 100) = "SAT (Aşırı Alım)" := by
  have h1 : ∀ r : ℚ, r < 30 → recommendation_of r = "AL (Aşırı Satım)" := by
    intro r hr
    unfold recommendation_of
    rw [if_pos hr]
  have h2 : ∀ r : ℚ, 70 < r → recommendation_of r = "SAT (Aşırı Alım)" := by
    intro r hr
    unfold recommendation_of
    rw [if_neg (by linarith : ¬ r < 30), if_pos hr]
  have h3 : ∀ r : ℚ, 30 ≤ r → r ≤ 70 → recommendation_of r = "NÖTR" := by
    intro r h30 h70
    unfold recommendation_of
    rw [if_neg (by linarith : ¬ r < 30), if_neg (by linarith : ¬ 70 < r)]
  exact ⟨h1, h2, h3, h1 _ (by norm_num), h3 _ (by norm_num) (by norm_num),
    h3 _ (by norm_num) (by norm_num), h2 _ (by norm_num)⟩

/-- Claim C5 witness: an RSI of 10 maps to the buy label. -/
theorem recommendation_thresholds_witness :
    recommendation_of 10 = "AL (Aşırı Satım)" :=
  recommendation_thresholds.1 10 (by norm_num)

/-- Claim C6: normalization uppercases the symbol and appends ".IS"
exactly when the uppercased symbol has at most 5 characters, does not
already end with ".IS" and does not contain "USD"; otherwise it returns
the uppercased symbol unchanged; it is total. "thyao" becomes "THYAO.IS",
"AAPLUSD" and "GOOGLE123" stay unchanged. -/
theorem normalize_symbol_spec (s : List Char) :
    ((upperChars s).length ≤ 5 ∧ ¬ ['.', 'I', 'S'] <:+ upperChars s ∧
        ¬ ['U', 'S', 'D'] <:+: upperChars s →
      normalize_symbol s = upperChars s ++ ['.', 'I', 'S']) ∧
    (¬ ((upperChars s).length ≤ 5 ∧ ¬ ['.', 'I', 'S'] <:+ upperChars s ∧
        ¬ ['U', 'S', 'D'] <:+: upperChars s) →
      normalize_symbol s = upperChars s) ∧
    normalize_symbol ("thyao".data) = ("THYAO.IS".data) ∧
    normalize_symbol ("AAPLUSD".data) = ("AAPLUSD".data) ∧
    normalize_symbol ("GOOGLE123".data) = ("GOOGLE123".data) := by
  refine ⟨?_, ?_, by decide, by decide, by decide⟩
  · intro h
    unfold normalize_symbol
    rw [if_pos h]
  · intro h
    unfold normalize_symbol
    rw [if_neg h]

/-- Claim C6 witness: "thyao" satisfies the suffixing condition and gets
the ".IS" suffix. -/
theorem normalize_symbol_spec_witness :
    normalize_symbol ("thyao".data) = upperChars ("thyao".data) ++ ['.', 'I', 'S'] :=
  (normalize_symbol_spec ("thyao".data)).1 (by decide)

/-- Claim C7 (amended): on a 200 response the three staged checks each
fail with their own 404 message: a missing chart key, missing result key
or empty result list gives the no-data message; a missing indicators or
quote key gives the no-price-data message; a present first quote whose
null-filtered close list is empty gives the no-closing-data message. An
empty (but present) quote list is NOT one of these cases: it raises
IndexError instead (see the counterexample). -/
theorem fetch_staged_notfound (symbol : String) (data : ChartData) :
    ((data.chart = none ∨ data.chart = some ⟨none⟩ ∨ data.chart = some ⟨some []⟩) →
      fetch_yahoo_data symbol 200 data =
        .error (.httpException 404 (symbol ++ " için veri bulunamadı."))) ∧
    (∀ meta rest, data.chart = some ⟨some (⟨meta, none⟩ :: rest)⟩ →
      fetch_yahoo_data symbol 200 data =
        .error (.httpException 404 (symbol ++ " için fiyat verisi bulunamadı."))) ∧
    (∀ meta rest, data.chart = some ⟨some (⟨meta, some ⟨none⟩⟩ :: rest)⟩ →
      fetch_yahoo_data symbol 200 data =
        .error (.httpException 404 (symbol ++ " için fiyat verisi bulunamadı."))) ∧
    (∀ meta rest q qs, data.chart = some ⟨some (⟨meta, some ⟨some (q :: qs)⟩⟩ :: rest)⟩ →
      (q.close.getD []).filterMap id = [] →
      fetch_yahoo_data symbol 200 data =
        .error (.httpException 404 (symbol ++ " için kapanış verisi bulunamadı."))) := by
  refine ⟨?_, ?_, ?_, ?_⟩
  · rintro (h | h | h) <;> simp [fetch_yahoo_data, h]
  · intro meta rest h
    simp [fetch_yahoo_data, h]
  · intro meta rest h
    simp [fetch_yahoo_data, h]
  · intro meta rest q qs h hfm
    simp [fetch_yahoo_data, h, hfm]

/-- Claim C7 witness: the body with no chart key yields the first-stage
404 message. -/
theorem fetch_staged_notfound_witness :
    fetch_yahoo_data ("X") 200 ⟨none⟩ =
      .error (.httpException 404 ("X" ++ " için veri bulunamadı.")) :=
  (fetch_staged_notfound ("X") ⟨none⟩).1 (Or.inl rfl)

/-- Claim C7 counterexample: a 200 response in which indicators.quote is
present but empty, so indicators.quote[0] is missing, raises IndexError
(surfaced later as a 500), not the staged NotFound the claim asserts. -/
theorem fetch_empty_quote_counterexample :
    fetch_yahoo_data ("X") 200 ⟨some ⟨some [⟨⟨"X", none, none⟩, some ⟨some []⟩⟩]⟩⟩ =
      .error (.otherError ("list index out of range")) ∧
    fetch_yahoo_data ("X") 200 ⟨some ⟨some [⟨⟨"X", none, none⟩, some ⟨some []⟩⟩]⟩⟩ ≠
      .error (.httpException 404 ("X" ++ " için fiyat verisi bulunamadı.")) := by
  refine ⟨rfl, ?_⟩
  intro h
  rw [show fetch_yahoo_data ("X") 200 ⟨some ⟨some [⟨⟨"X", none, none⟩, some ⟨some []⟩⟩]⟩⟩ =
      .error (.otherError ("list index out of range")) from rfl] at h
  cases h

/-- Claim C8 (amended): the resolved window satisfies start < end for
every period token, provided that for "ytd" at least one whole second has
elapsed since January 1 of the current year; at the very start of the
year the ytd duration is 0 and start = end (see the counterexample). -/
theorem time_window_start_lt_end (period : String) (ytd_seconds : ℕ) (end_time : ℤ)
    (h : period = "ytd" → 0 < ytd_seconds) :
    (time_window period ytd_seconds end_time).1 < (time_window period ytd_seconds end_time).2 := by
  have hp : 0 < get_period_seconds period ytd_seconds :=
    period_seconds_pos period ytd_seconds h
  have e1 : (time_window period ytd_seconds end_time).1 =
      end_time - (get_period_seconds period ytd_seconds : ℤ) := rfl
  have e2 : (time_window period ytd_seconds end_time).2 = end_time := rfl
  rw [e1, e2]
  omega

/-- Claim C8 witness: a 1mo window ends strictly after it starts. -/
theorem time_window_start_lt_end_witness :
    (time_window ("1mo") 0 1700000000).1 < (time_window ("1mo") 0 1700000000).2 :=
  time_window_start_lt_end ("1mo") 0 1700000000 (fun h => absurd h (by decide))

/-- Claim C8 counterexample: for "ytd" with zero elapsed seconds since
January 1 (request in the first second of the year) the window collapses
to start = end, violating start < end. -/
theorem time_window_ytd_counterexample :
    ¬ (time_window ("ytd") 0 1700000000).1 < (time_window ("ytd") 0 1700000000).2 := by
  decide

/-- Claim C9 (amended): on every successful analysis the reported
change_percent equals round((last - first) / first * 100, 2) computed
over the null-filtered close series, where last and first are its last
and first entries; the unrounded formula value is reported only when it
already has at most two decimals. -/
theorem analyze_change_percent_rounded (api_secret : String)
    (provider : String → String → String → ℕ × ChartData)
    (request : StockRequest) (data : FetchResult)
    (h : fetch_yahoo_data (normalize_symbol_str request.symbol)
          (provider (normalize_symbol_str request.symbol) request.period request.interval).1
          (provider (normalize_symbol_str request.symbol) request.period request.interval).2 =
        .ok data) :
    analyze_stock api_secret provider request (some api_secret) =
      .ok ⟨data.symbol, round2 (data.closes.getLastD 0),
           round2 ((data.closes.getLastD 0 - data.closes.headD 0) / data.closes.headD 0 * 100),
           calculate_rsi data.closes 14,
           recommendation_of (calculate_rsi data.closes 14),
           request.period, data.closes.length⟩ :=
  analyze_ok_of_fetch_ok api_secret provider request data h

/-- Claim C9 witness: a concrete successful run with closes [3, 4]. -/
theorem analyze_change_percent_rounded_witness :
    analyze_stock ("s")
      (fun _ _ _ => (200,
        ⟨some ⟨some [⟨⟨"THYAO.IS", some ("TRY"), some 4⟩,
          some ⟨some [⟨some [some 3, some 4]⟩]⟩⟩]⟩⟩))
      ⟨"THYAO1", "1mo", "1d"⟩ (some ("s")) =
      .ok ⟨"THYAO.IS", round2 (([(3 : ℚ), 4].getLastD 0)),
           round2 ((([(3 : ℚ), 4].getLastD 0) - ([(3 : ℚ), 4].headD 0)) /
             ([(3 : ℚ), 4].headD 0) * 100),
           calculate_rsi [(3 : ℚ), 4] 14,
           recommendation_of (calculate_rsi [(3 : ℚ), 4] 14),
           "1mo", 2⟩ :=
  analyze_change_percent_rounded ("s")
    (fun _ _ _ => (200,
      ⟨some ⟨some [⟨⟨"THYAO.IS", some ("TRY"), some 4⟩,
        some ⟨some [⟨some [some 3, some 4]⟩]⟩⟩]⟩⟩))
    ⟨"THYAO1", "1mo", "1d"⟩ ⟨"THYAO.IS", [3, 4], "TRY", 4⟩ rfl

/-- Claim C9 counterexample: with closes [3, 4] the true formula value
(4 - 3) / 3 * 100 = 100/3 has infinitely many decimals, while the
reported change_percent is the rounded 33.33, so the reported value does
not equal the formula value. -/
theorem change_percent_counterexample :
    analyze_stock ("s")
      (fun _ _ _ => (200,
        ⟨some ⟨some [⟨⟨"THYAO.IS", some ("TRY"), some 4⟩,
          some ⟨some [⟨some [some 3, some 4]⟩]⟩⟩]⟩⟩))
      ⟨"THYAO1", "1mo", "1d"⟩ (some ("s")) =
      .ok ⟨"THYAO.IS", 4, 3333 / 100, 50, "NÖTR", "1mo", 2⟩ ∧
    (3333 / 100 : ℚ) ≠ (4 - 3) / 3 * 100 := by
  constructor
  · have h := analyze_ok_of_fetch_ok ("s")
      (fun _ _ _ => (200,
        ⟨some ⟨some [⟨⟨"THYAO.IS", some ("TRY"), some 4⟩,
          some ⟨some [⟨some [some 3, some 4]⟩]⟩⟩]⟩⟩))
      ⟨"THYAO1", "1mo", "1d"⟩ ⟨"THYAO.IS", [3, 4], "TRY", 4⟩ rfl
    rw [h]
    have hgl : ([(3 : ℚ), 4].getLastD 0) = 4 := rfl
    have hhd : ([(3 : ℚ), 4].headD 0) = 3 := rfl
    have hrsi : calculate_rsi [(3 : ℚ), 4] 14 = 50 := rfl
    have hrec : recommendation_of (50 : ℚ) = "NÖTR" := by
      unfold recommendation_of
      rw [if_neg (by norm_num), if_neg (by norm_num)]
    simp only [hgl, hhd, hrsi, hrec, round2_four, round2_third]
    rfl
  · norm_num

/-- Claim C10: symbol normalization is idempotent: applying the
uppercase-and-conditionally-suffix transformation twice yields the same
result as applying it once. -/
theorem normalize_symbol_idem (s : List Char) :
    normalize_symbol (normalize_symbol s) = normalize_symbol s := by
  unfold normalize_symbol
  by_cases h : (upperChars s).length ≤ 5 ∧ ¬ ['.', 'I', 'S'] <:+ upperChars s ∧
      ¬ ['U', 'S', 'D'] <:+: upperChars s
  · rw [if_pos h]
    have hu : upperChars (upperChars s ++ ['.', 'I', 'S']) = upperChars s ++ ['.', 'I', 'S'] := by
      rw [upperChars_append, upperChars_idem, upperChars_dot_is]
    rw [hu]
    rw [if_neg]
    intro hc
    exact hc.2.1 (List.suffix_append _ _)
  · rw [if_neg h]
    rw [upperChars_idem]
    rw [if_neg h]

end StockEngine
